import Mathlib

/-!
Shallow embedding of `main.go` of ihcsim/container-snapshotter.

The program drives an external containerd service.  Every external call is
modelled by an environment field recording that call's result (`none` /
`Except.ok` = success, `some e` / `Except.error e` = the error returned);
each embedded function consumes its environment sequentially exactly as the
Go code consumes its call results, and additionally produces the list of
external calls it actually issued (its trace), so that ordering and
fail-fast claims can be stated.
-/

namespace CSnap

/-- Errors are modelled by their message strings, as Go errors are combined
by string formatting in `cleanup` (main.go:222). -/
abbrev Err := String

/-- Result of `ExitStatus.Result()`: exit code, exit time, optional error
(main.go:66, 257). Time is an opaque ordinal. -/
structure ExitResult where
  code : Nat
  time : Nat
  errMsg : Option Err
deriving Repr, DecidableEq

/-- main.go:20 -/
def endpoint : String := "/run/containerd/containerd.sock"

/-- main.go:21 -/
def imageName : String := "docker.io/library/nginx:latest"

/-- main.go:22: the containerd namespace constant (also passed literally at
main.go:37). `namespace` is a Lean keyword, hence the suffix. -/
def namespaceConst : String := "example"

/-- main.go:122: the Go layout string for formatting timestamps. -/
def timeLayout : String := "01-02-2006-15:04:05"

/-- main.go:123: the checkpoint image name built in `snapshots`:
`fmt.Sprintf("isim.dev/checkpoint/container/%s:%s", container.ID(), now)`. -/
def snapshotName (containerID now : String) : String :=
  "isim.dev/checkpoint/container/" ++ containerID ++ ":" ++ now

/-- Modelled from the spec words of the naming claim: the checkpoint name is
`<namespace>/checkpoint/container/<container-id>:<timestamp>` with
`<namespace>` the orchestrator's namespace.  Defined for comparison with
`snapshotName`, which is translated from the source. -/
def specCheckpointName (ns containerID ts : String) : String :=
  ns ++ "/checkpoint/container/" ++ containerID ++ ":" ++ ts

/-- main.go:141: the archive file name built in `export`:
`fmt.Sprintf("snapshot-%s.tar", createdAt)`. -/
def archiveFileName (createdAt : String) : String :=
  "snapshot-" ++ createdAt ++ ".tar"

/-! ### `start` (main.go:86-118) -/

/-- Results of the external calls `start` makes, in program order. -/
structure StartEnv where
  pullRes : Option Err
  newContainerRes : Option Err
  newTaskRes : Option Err
  waitRes : Option Err
  startRes : Option Err

/-- The external calls `start` can issue. -/
inductive StartEv
  | pull
  | newContainer
  | newTask
  | waitReg
  | taskStart
deriving Repr, DecidableEq

/-- `start` (main.go:86-118): pull, create container, create task, register
the exit wait, then start the task; any failure returns immediately.
Returns the trace of calls issued and the error result. -/
def start (env : StartEnv) : List StartEv × Option Err :=
  match env.pullRes with
  | some e => ([.pull], some e)
  | none =>
    match env.newContainerRes with
    | some e => ([.pull, .newContainer], some e)
    | none =>
      match env.newTaskRes with
      | some e => ([.pull, .newContainer, .newTask], some e)
      | none =>
        match env.waitRes with
        | some e => ([.pull, .newContainer, .newTask, .waitReg], some e)
        | none =>
          match env.startRes with
          | some e => ([.pull, .newContainer, .newTask, .waitReg, .taskStart], some e)
          | none => ([.pull, .newContainer, .newTask, .waitReg, .taskStart], none)

/-! ### `restore` (main.go:156-201) -/

/-- Results of the external calls `restore` makes, in program order.
`importRes` carries the list of image names `client.Import` returned on
success (main.go:162-164). -/
structure RestoreEnv where
  seekRes : Option Err
  importRes : Except Err (List String)
  getImageRes : Option Err
  restoreRes : Option Err
  newTaskRes : Option Err
  waitRes : Option Err
  startRes : Option Err

/-- The calls and operations `restore` can issue.  `indexFirst` is the
evaluation of the unguarded expression `images[0]` (main.go:170). -/
inductive REv
  | seek
  | importArchive
  | indexFirst
  | getImage
  | restoreContainer
  | newTask
  | waitReg
  | taskStart
deriving Repr, DecidableEq

/-- How `restore` can finish: normally, with a returned error, or by a Go
runtime panic (index out of range on `images[0]`, main.go:170). -/
inductive ROutcome
  | ok
  | err (e : Err)
  | panicked
deriving Repr, DecidableEq

/-- `restore` (main.go:156-201): seek the archive to offset 0, import it,
take `images[0]` unguarded, look the image up, restore a container, create
its task, register the exit wait, then start the task.  Go slice indexing
panics on an empty slice, so an empty import result yields `panicked`. -/
def restore (env : RestoreEnv) : List REv × ROutcome :=
  match env.seekRes with
  | some e => ([.seek], .err e)
  | none =>
    match env.importRes with
    | .error e => ([.seek, .importArchive], .err e)
    | .ok [] => ([.seek, .importArchive, .indexFirst], .panicked)
    | .ok (_ :: _) =>
      match env.getImageRes with
      | some e => ([.seek, .importArchive, .indexFirst, .getImage], .err e)
      | none =>
        match env.restoreRes with
        | some e => ([.seek, .importArchive, .indexFirst, .getImage, .restoreContainer], .err e)
        | none =>
          match env.newTaskRes with
          | some e =>
            ([.seek, .importArchive, .indexFirst, .getImage, .restoreContainer, .newTask], .err e)
          | none =>
            match env.waitRes with
            | some e =>
              ([.seek, .importArchive, .indexFirst, .getImage, .restoreContainer, .newTask,
                .waitReg], .err e)
            | none =>
              match env.startRes with
              | some e =>
                ([.seek, .importArchive, .indexFirst, .getImage, .restoreContainer, .newTask,
                  .waitReg, .taskStart], .err e)
              | none =>
                ([.seek, .importArchive, .indexFirst, .getImage, .restoreContainer, .newTask,
                  .waitReg, .taskStart], .ok)

/-! ### `remove` (main.go:228-270) -/

/-- Task statuses of the containerd API; `remove` only compares against
`containerd.Running` (main.go:240). -/
inductive TStatus
  | created
  | running
  | stopped
  | paused
  | pausing
  | unknown
deriving Repr, DecidableEq

/-- Results of the external calls `remove` makes on one container, in
program order. -/
structure RemoveEnv where
  containerID : String
  taskRes : Option Err
  statusRes : Except Err TStatus
  killRes : Option Err
  waitRes : Option Err
  deleteRes : Except Err ExitResult
  containerDeleteRes : Option Err

/-- The external calls and operations `remove` can issue.  `snapshotDelete`
is never issued by the source; it exists so the spec's claimed teardown
sequence (which includes a snapshot/layer deletion step) can be written
down and compared against the trace. -/
inductive RemoveEv
  | taskLookup
  | statusQuery
  | kill
  | waitReg
  | waitBlock
  | taskDelete
  | snapshotDelete
  | containerDelete
deriving Repr, DecidableEq

/-- The tail of `remove` after the status/kill stage (main.go:247-269):
register the exit wait, block on it, delete the task, delete the container
record. -/
def removeTail (env : RemoveEnv) (pre : List RemoveEv) : List RemoveEv × Option Err :=
  match env.waitRes with
  | some e => (pre ++ [.waitReg], some e)
  | none =>
    match env.deleteRes with
    | .error e => (pre ++ [.waitReg, .waitBlock, .taskDelete], some e)
    | .ok _ =>
      match env.containerDeleteRes with
      | some e => (pre ++ [.waitReg, .waitBlock, .taskDelete, .containerDelete], some e)
      | none => (pre ++ [.waitReg, .waitBlock, .taskDelete, .containerDelete], none)

/-- `remove` (main.go:228-270): look the task up, query its status, kill it
with SIGKILL only when it is running, wait for exit, delete the task
(capturing its exit status), then delete the container record.  The first
error at any step is returned immediately. -/
def remove (env : RemoveEnv) : List RemoveEv × Option Err :=
  match env.taskRes with
  | some e => ([.taskLookup], some e)
  | none =>
    match env.statusRes with
    | .error e => ([.taskLookup, .statusQuery], some e)
    | .ok st =>
      if st = .running then
        match env.killRes with
        | some e => ([.taskLookup, .statusQuery, .kill], some e)
        | none => removeTail env [.taskLookup, .statusQuery, .kill]
      else
        removeTail env [.taskLookup, .statusQuery]

/-- Modelled from the spec words of the teardown claim: the per-container
steps are task lookup, status query, kill (when running), block on exit,
task delete, snapshot/layer delete, container-record delete.  Defined for
comparison with the trace of `remove`, which is translated from the source. -/
def specRemoveSteps : List RemoveEv :=
  [.taskLookup, .statusQuery, .kill, .waitBlock, .taskDelete, .snapshotDelete, .containerDelete]

/-- True when some step of `remove` strictly before the container-record
deletion fails (task lookup, status query, kill of a running task, wait
registration, or task deletion). -/
def preDeleteFailure (env : RemoveEnv) : Bool :=
  env.taskRes.isSome ||
    match env.statusRes with
    | .error _ => true
    | .ok st =>
      (st = TStatus.running && env.killRes.isSome) || env.waitRes.isSome ||
        match env.deleteRes with
        | .error _ => true
        | .ok _ => false

/-! ### `cleanup` (main.go:203-226) -/

/-- The body of the first loop of `cleanup` (main.go:210-214): `remove` the
container, append its trace, and append its error (when any) to the
collected error list. -/
def cleanupStep (acc : List RemoveEv × List Err) (c : RemoveEnv) : List RemoveEv × List Err :=
  let r := remove c
  (acc.1 ++ r.1, match r.2 with
    | some e => acc.2 ++ [e]
    | none => acc.2)

/-- The body of the second loop of `cleanup` (main.go:217-223): fold one
collected error into the final error, concatenating with a newline. -/
def combineErr (finalErr : Option Err) (e : Err) : Option Err :=
  match finalErr with
  | none => some e
  | some f => some (f ++ "\n" ++ e)

/-- `cleanup` (main.go:203-226): enumerate all containers; `remove` each,
appending each per-container error to `errs` without stopping; then fold
`errs` into one final error, concatenating messages with a newline
(main.go:216-223).  Returns the concatenation of the per-container traces
and the aggregate result. -/
def cleanup (enum : Except Err (List RemoveEnv)) : List RemoveEv × Option Err :=
  match enum with
  | .error e => ([], some e)
  | .ok containers =>
    let folded := containers.foldl cleanupStep ([], [])
    (folded.1, folded.2.foldl combineErr none)

/-- The per-container errors of a cleanup pass, in enumeration order. -/
def collectErrs (containers : List RemoveEnv) : List Err :=
  containers.filterMap (fun c => (remove c).2)

/-- Newline-joining of an error list: `none` on the empty list, otherwise
the messages concatenated with a newline between consecutive ones. -/
def joinErrs : List Err → Option Err
  | [] => none
  | e :: rest => some (rest.foldl (fun a b => a ++ "\n" ++ b) e)

/-! ### `main` (main.go:29-75) -/

/-- The two events the select loop (main.go:60-74) races: an OS signal or
the exit notification of the originally started task. -/
inductive LoopEvent
  | signal (name : String)
  | taskExit (r : ExitResult)

/-- Results of the phases of `main`, in program order.  `startEnv` and
`restoreEnv` feed the embedded `start` and `restore`; `snapshotsRes` is the
result of the checkpoint/export phase (its error is only logged);
`cleanupEnum` is the container enumeration the deferred `cleanup` sees. -/
structure MainEnv where
  initRes : Option Err
  startEnv : StartEnv
  snapshotsRes : Option Err
  restoreEnv : RestoreEnv
  loopEvent : LoopEvent
  cleanupEnum : Except Err (List RemoveEnv)

/-- The phase-level steps `main` can take. -/
inductive MainEv
  | initClients
  | startCall
  | snapshotsCall
  | restoreCall
  | recvSignal
  | recvTaskExit
  | cleanupRun
  | clientClose
deriving Repr, DecidableEq

/-- The deferred function of main.go:38-44: run `cleanup`; on a non-nil
aggregate error log it and `os.Exit(127)`, otherwise close the client and
let the surrounding exit proceed with `normalCode`. -/
def runDeferred (env : MainEnv) (pre : List MainEv) (normalCode : Nat) : List MainEv × Nat :=
  match (cleanup env.cleanupEnum).2 with
  | some _ => (pre ++ [.cleanupRun], 127)
  | none => (pre ++ [.cleanupRun, .clientClose], normalCode)

/-- `main` (main.go:29-75).  A failed `initClients` or `start` calls
`log.Fatal`, which is `os.Exit(1)`: deferred functions do not run, so the
process exits 1 without `cleanup`.  Errors from `snapshots` and `restore`
are only logged and the loop is still entered.  A Go panic inside `restore`
(empty import result) unwinds `main`, running the deferred cleanup, and the
runtime then exits with code 2.  On either loop event `main` returns
normally: the deferred cleanup runs and the process exits 0 (or 127 when
cleanup failed). -/
def mainGo (env : MainEnv) : List MainEv × Nat :=
  match env.initRes with
  | some _ => ([.initClients], 1)
  | none =>
    match (start env.startEnv).2 with
    | some _ => ([.initClients, .startCall], 1)
    | none =>
      let pre := [MainEv.initClients, .startCall, .snapshotsCall, .restoreCall]
      match (restore env.restoreEnv).2 with
      | .panicked => runDeferred env pre 2
      | _ =>
        match env.loopEvent with
        | .signal _ => runDeferred env (pre ++ [.recvSignal]) 0
        | .taskExit _ => runDeferred env (pre ++ [.recvTaskExit]) 0

/-! ### Helper lemmas -/

/-- String append is left-cancellative. -/
lemma str_append_cancel_left (s a b : String) (h : s ++ a = s ++ b) : a = b := by
  have h2 := congrArg String.data h
  simp [String.data_append] at h2
  exact String.ext h2

/-- A successful `remove` issued the container-record deletion. -/
lemma remove_ok_has_containerDelete (env : RemoveEnv) (h : (remove env).2 = none) :
    RemoveEv.containerDelete ∈ (remove env).1 := by
  obtain ⟨i, t, st, k, w, d, c⟩ := env
  rcases t with _ | e₀
  case mk.some => simp [remove] at h
  rcases st with e₁ | st
  case mk.none.error => simp [remove] at h
  cases st <;> cases k <;> cases w <;> rcases d with e₂ | r <;> cases c <;>
    simp [remove, removeTail] at h ⊢

/-! ### Claim C3 -/

/-- C3: in both `start` and `restore`, the exit-wait registration occurs
strictly before the task start in the issued call trace, and when the wait
registration fails the task start is never issued; in `start`, when all
preceding calls succeed and the wait registration fails, the trace ends at
the registration and its error is returned. -/
theorem wait_registered_before_task_start (se : StartEnv) (re : RestoreEnv) :
    (StartEv.taskStart ∈ (start se).1 →
      StartEv.waitReg ∈ (start se).1.takeWhile (fun ev => ev != StartEv.taskStart))
  ∧ (se.waitRes.isSome = true → StartEv.taskStart ∉ (start se).1)
  ∧ (se.pullRes = none → se.newContainerRes = none → se.newTaskRes = none →
      se.waitRes.isSome = true →
      (start se).1 = [StartEv.pull, StartEv.newContainer, StartEv.newTask, StartEv.waitReg]
        ∧ (start se).2 = se.waitRes)
  ∧ (REv.taskStart ∈ (restore re).1 →
      REv.waitReg ∈ (restore re).1.takeWhile (fun ev => ev != REv.taskStart))
  ∧ (re.waitRes.isSome = true → REv.taskStart ∉ (restore re).1) := by
  have hs : (StartEv.taskStart ∈ (start se).1 →
        StartEv.waitReg ∈ (start se).1.takeWhile (fun ev => ev != StartEv.taskStart))
      ∧ (se.waitRes.isSome = true → StartEv.taskStart ∉ (start se).1)
      ∧ (se.pullRes = none → se.newContainerRes = none → se.newTaskRes = none →
          se.waitRes.isSome = true →
          (start se).1 = [StartEv.pull, StartEv.newContainer, StartEv.newTask, StartEv.waitReg]
            ∧ (start se).2 = se.waitRes) := by
    obtain ⟨p, c, t, w, s⟩ := se
    cases p <;> cases c <;> cases t <;> cases w <;> cases s <;>
      simp [start, List.takeWhile] <;> decide
  have hr : (REv.taskStart ∈ (restore re).1 →
        REv.waitReg ∈ (restore re).1.takeWhile (fun ev => ev != REv.taskStart))
      ∧ (re.waitRes.isSome = true → REv.taskStart ∉ (restore re).1) := by
    obtain ⟨sk, im, g, r, nt, w₂, s₂⟩ := re
    rcases sk with _ | e₀
    case mk.some => simp [restore]
    rcases im with e₁ | l
    case mk.none.error => simp [restore]
    rcases l with _ | ⟨a, l⟩ <;> cases g <;> cases r <;> cases nt <;> cases w₂ <;> cases s₂ <;>
      simp [restore, List.takeWhile] <;> decide
  exact ⟨hs.1, hs.2.1, hs.2.2, hr.1, hr.2⟩

/-! ### Claim C5 -/

/-- C5 counterexample: at the concrete container id `nginx-server` and a
concrete timestamp, the checkpoint name built by `snapshots` differs from
`<namespace>/checkpoint/container/<container-id>:<timestamp>` with
`<namespace>` the orchestrator namespace constant `example`: the code uses
the fixed literal prefix `isim.dev` instead. -/
theorem checkpoint_name_not_namespace_cx :
    snapshotName "nginx-server" "08-22-2022-21:03:20" ≠
      specCheckpointName namespaceConst "nginx-server" "08-22-2022-21:03:20" := by
  decide

/-- C5 amended: the checkpoint name equals
`isim.dev/checkpoint/container/<container-id>:<timestamp>` with the fixed
literal prefix `isim.dev` in place of the orchestrator's namespace, and
names for distinct timestamps of the same container are distinct. -/
theorem checkpoint_name_shape (cid ts ts₂ : String) :
    snapshotName cid ts = specCheckpointName "isim.dev" cid ts
  ∧ (ts ≠ ts₂ → snapshotName cid ts ≠ snapshotName cid ts₂) := by
  constructor
  · apply String.ext
    have hlit : ("isim.dev/checkpoint/container/" : String).data
        = ("isim.dev" : String).data ++ ("/checkpoint/container/" : String).data := by decide
    simp [snapshotName, specCheckpointName, String.data_append, hlit, List.append_assoc]
  · intro hne heq
    apply hne
    have h2 := congrArg String.data heq
    simp [snapshotName, String.data_append] at h2
    exact String.ext h2

/-! ### Claim C6 -/

/-- C6: `restore` issues the seek to offset zero as its very first
operation, hence strictly before the import; when the seek fails, the
archive is never imported and the seek error is the result. -/
theorem restore_seeks_before_import (env : RestoreEnv) :
    ((restore env).1).head? = some REv.seek
  ∧ (∀ e, env.seekRes = some e →
      REv.importArchive ∉ (restore env).1 ∧ restore env = ([REv.seek], ROutcome.err e)) := by
  obtain ⟨sk, im, g, r, nt, w, s⟩ := env
  rcases sk with _ | e₀
  case mk.some => simp [restore]
  rcases im with e₁ | l
  case mk.none.error => simp [restore]
  rcases l with _ | ⟨a, l⟩ <;> cases g <;> cases r <;> cases nt <;> cases w <;> cases s <;>
    simp [restore]

/-! ### Claim C9 -/

/-- C9: when the seek succeeds and the import succeeds but returns an empty
list of image references, `restore` reaches the unguarded `images[0]` and
panics; no error value is returned and no later call is issued. -/
theorem empty_import_panics (env : RestoreEnv) (h1 : env.seekRes = none)
    (h2 : env.importRes = Except.ok []) :
    restore env = ([REv.seek, REv.importArchive, REv.indexFirst], ROutcome.panicked) := by
  obtain ⟨sk, im, g, r, nt, w, s⟩ := env
  simp at h1 h2
  subst h1 h2
  simp [restore]

/-- A restore environment whose import succeeds with zero images. -/
def emptyImportEnv : RestoreEnv :=
  { seekRes := none, importRes := Except.ok [], getImageRes := none, restoreRes := none,
    newTaskRes := none, waitRes := none, startRes := none }

/-- C9 witness: the panic outcome at the concrete empty-import environment. -/
theorem empty_import_panics_witness :
    restore emptyImportEnv = ([REv.seek, REv.importArchive, REv.indexFirst], ROutcome.panicked) :=
  empty_import_panics emptyImportEnv rfl rfl

/-! ### Claims C1, C4, C10: removal and cleanup -/

/-- The first cleanup loop appends every container's trace and error in
enumeration order, whatever the accumulator. -/
lemma foldl_cleanupStep (containers : List RemoveEnv) (acc : List RemoveEv × List Err) :
    containers.foldl cleanupStep acc =
      (acc.1 ++ (containers.map (fun c => (remove c).1)).flatten,
        acc.2 ++ collectErrs containers) := by
  induction containers generalizing acc with
  | nil => simp [collectErrs]
  | cons c cs ih =>
    rcases h : (remove c).2 with _ | e <;>
      simp [cleanupStep, collectErrs, h, ih, List.append_assoc]

/-- The second cleanup loop, started on an already-present error, appends
the remaining messages newline-separated. -/
lemma foldl_combineErr_some (errs : List Err) (f : Err) :
    errs.foldl combineErr (some f) = some (errs.foldl (fun a b => a ++ "\n" ++ b) f) := by
  induction errs generalizing f with
  | nil => rfl
  | cons e es ih => simp [combineErr, ih]

/-- The second cleanup loop equals the newline-joining of the collected
errors. -/
lemma foldl_combineErr_none (errs : List Err) :
    errs.foldl combineErr none = joinErrs errs := by
  cases errs with
  | nil => rfl
  | cons e es => simp [combineErr, joinErrs, foldl_combineErr_some]

/-- `joinErrs` is `none` exactly on the empty error list. -/
lemma joinErrs_eq_none (errs : List Err) : joinErrs errs = none ↔ errs = [] := by
  cases errs <;> simp [joinErrs]

/-- C1: on an enumerated container list, `cleanup` attempts the removal of
every container (its trace is the concatenation of all per-container
traces, no short-circuit), its aggregate result is the newline-joining of
exactly the per-container errors in order, that result is nil exactly when
no per-container error occurred, and a container whose removal succeeded
had its container-record deletion issued. -/
theorem cleanup_attempts_all_and_aggregates (containers : List RemoveEnv) :
    (cleanup (Except.ok containers)).1 = (containers.map (fun c => (remove c).1)).flatten
  ∧ (cleanup (Except.ok containers)).2 = joinErrs (collectErrs containers)
  ∧ ((cleanup (Except.ok containers)).2 = none ↔ collectErrs containers = [])
  ∧ (∀ c ∈ containers, (remove c).2 = none → RemoveEv.containerDelete ∈ (remove c).1) := by
  have h1 := foldl_cleanupStep containers ([], [])
  refine ⟨?_, ?_, ?_, ?_⟩
  · simp [cleanup, h1]
  · simp [cleanup, h1, foldl_combineErr_none]
  · simp [cleanup, h1, foldl_combineErr_none, joinErrs_eq_none]
  · intro c _ h
    exact remove_ok_has_containerDelete c h

/-- An all-success removal environment for one running container. -/
def okRunningRemoveEnv : RemoveEnv :=
  { containerID := "nginx-server", taskRes := none, statusRes := Except.ok TStatus.running,
    killRes := none, waitRes := none, deleteRes := Except.ok ⟨0, 0, none⟩,
    containerDeleteRes := none }

/-- C4 counterexample: the teardown sequence claimed by the spec contains a
snapshot/layer deletion step, but on a concrete running container whose
every call succeeds, the trace of `remove` completes (nil error) without
ever issuing a snapshot/layer deletion. -/
theorem remove_no_snapshot_delete_cx :
    RemoveEv.snapshotDelete ∈ specRemoveSteps
  ∧ (remove okRunningRemoveEnv).2 = none
  ∧ RemoveEv.snapshotDelete ∉ (remove okRunningRemoveEnv).1 := by
  decide

/-- C4 amended: on a fully successful teardown, `remove` issues task
lookup, status query, kill (exactly when the status is running), wait
registration, the blocking wait, task deletion, and container-record
deletion, in that order — with no snapshot/layer deletion step. -/
theorem remove_step_sequence (env : RemoveEnv) (st : TStatus) (r : ExitResult)
    (h1 : env.taskRes = none) (h2 : env.statusRes = Except.ok st) (h3 : env.killRes = none)
    (h4 : env.waitRes = none) (h5 : env.deleteRes = Except.ok r)
    (h6 : env.containerDeleteRes = none) :
    remove env =
      (if st = TStatus.running then
        [RemoveEv.taskLookup, RemoveEv.statusQuery, RemoveEv.kill, RemoveEv.waitReg,
          RemoveEv.waitBlock, RemoveEv.taskDelete, RemoveEv.containerDelete]
      else
        [RemoveEv.taskLookup, RemoveEv.statusQuery, RemoveEv.waitReg, RemoveEv.waitBlock,
          RemoveEv.taskDelete, RemoveEv.containerDelete], none)
  ∧ RemoveEv.snapshotDelete ∉ (remove env).1 := by
  obtain ⟨i, t, stf, k, w, d, c⟩ := env
  simp at h1 h2 h3 h4 h5 h6
  subst h1 h2 h3 h4 h5 h6
  cases st <;> simp [remove, removeTail]

/-- C4 witness: the amended sequence at the concrete all-success running
container. -/
theorem remove_step_sequence_witness :
    remove okRunningRemoveEnv =
      ([RemoveEv.taskLookup, RemoveEv.statusQuery, RemoveEv.kill, RemoveEv.waitReg,
        RemoveEv.waitBlock, RemoveEv.taskDelete, RemoveEv.containerDelete], none) := by
  have h := remove_step_sequence okRunningRemoveEnv TStatus.running ⟨0, 0, none⟩
    rfl rfl rfl rfl rfl rfl
  simpa using h.1

/-- C10: inside one container's teardown the first failing call returns its
error immediately — a task-lookup failure stops after the lookup, a status
failure after the query, a kill failure after the kill — and any failure
before the container-record deletion (lookup, status, kill of a running
task, wait registration, task deletion) leaves the container record
undeleted and yields a per-container error. -/
theorem remove_fail_fast (env : RemoveEnv) :
    (env.taskRes.isSome = true → remove env = ([RemoveEv.taskLookup], env.taskRes))
  ∧ (∀ e, env.taskRes = none → env.statusRes = Except.error e →
      remove env = ([RemoveEv.taskLookup, RemoveEv.statusQuery], some e))
  ∧ (∀ e, env.taskRes = none → env.statusRes = Except.ok TStatus.running →
      env.killRes = some e →
      remove env = ([RemoveEv.taskLookup, RemoveEv.statusQuery, RemoveEv.kill], some e))
  ∧ (preDeleteFailure env = true →
      RemoveEv.containerDelete ∉ (remove env).1 ∧ ((remove env).2).isSome = true) := by
  obtain ⟨i, t, st, k, w, d, c⟩ := env
  rcases t with _ | e₀
  case mk.some => simp [remove, preDeleteFailure]
  rcases st with e₁ | st
  case mk.none.error => simp [remove, preDeleteFailure]
  cases st <;> cases k <;> cases w <;> rcases d with e₂ | r <;> cases c <;>
    simp [remove, removeTail, preDeleteFailure]

/-! ### Claims C2, C7, C8: the main orchestration -/

/-- A start environment whose every call succeeds. -/
def okStartEnv : StartEnv :=
  { pullRes := none, newContainerRes := none, newTaskRes := none, waitRes := none,
    startRes := none }

/-- A restore environment whose every call succeeds and whose import
returns one image. -/
def okRestoreEnv : RestoreEnv :=
  { seekRes := none, importRes := Except.ok ["isim.dev/checkpoint/container/nginx-server:t"],
    getImageRes := none, restoreRes := none, newTaskRes := none, waitRes := none,
    startRes := none }

/-- A start environment whose image pull fails. -/
def pullFailStartEnv : StartEnv :=
  { pullRes := some "pull failed", newContainerRes := none, newTaskRes := none,
    waitRes := none, startRes := none }

/-- A main environment in which only the initial container start fails
(the image pull errors) and everything else would succeed. -/
def startFailMainEnv : MainEnv :=
  { initRes := none, startEnv := pullFailStartEnv, snapshotsRes := none,
    restoreEnv := okRestoreEnv, loopEvent := LoopEvent.signal "interrupt",
    cleanupEnum := Except.ok [] }

/-- C2 counterexample: when the initial container start fails, `main` calls
`log.Fatal`, i.e. `os.Exit(1)`: the process exits 1 and the deferred
cleanup never runs, so the Cleanup Reaper is not triggered on this exit
path. -/
theorem start_failure_skips_cleanup_cx :
    mainGo startFailMainEnv = ([MainEv.initClients, MainEv.startCall], 1)
  ∧ MainEv.cleanupRun ∉ (mainGo startFailMainEnv).1 := by
  decide

/-- C2 amended: the Cleanup Reaper is triggered before process termination
on every exit path reached after a successful client connection and
initial container start (normal loop return on a signal or on task exit,
after snapshot/export or import/restore failures, and on a restore panic);
but a connection failure or an initial-start failure exits through
`log.Fatal`, which skips the deferred cleanup, so the Reaper is not
triggered on those two paths. -/
theorem cleanup_runs_unless_fatal_exit (env : MainEnv) :
    (env.initRes = none → (start env.startEnv).2 = none → MainEv.cleanupRun ∈ (mainGo env).1)
  ∧ (env.initRes.isSome = true → MainEv.cleanupRun ∉ (mainGo env).1 ∧ (mainGo env).2 = 1)
  ∧ (env.initRes = none → ((start env.startEnv).2).isSome = true →
      MainEv.cleanupRun ∉ (mainGo env).1 ∧ (mainGo env).2 = 1) := by
  rcases hi : env.initRes with _ | ei <;>
    rcases hs : (start env.startEnv).2 with _ | es <;>
    rcases hr : (restore env.restoreEnv).2 with _ | er | _ <;>
    rcases hl : env.loopEvent with s | r <;>
    rcases hc : (cleanup env.cleanupEnum).2 with _ | ec <;>
    simp [mainGo, runDeferred, hi, hs, hr, hl, hc]

/-- C7: a connection failure exits immediately with code 1 after only the
client initialization; a failure of the initial container start exits
immediately with code 1 right after the start phase; but whatever the
results of the checkpoint/export phase and of the import/restore phase
(short of a panic), the process still reaches the blocking wait (a signal
or task-exit event is received) and the deferred cleanup runs. -/
theorem snapshot_restore_failures_nonfatal (env : MainEnv) :
    (env.initRes.isSome = true → mainGo env = ([MainEv.initClients], 1))
  ∧ (env.initRes = none → ((start env.startEnv).2).isSome = true →
      mainGo env = ([MainEv.initClients, MainEv.startCall], 1))
  ∧ (env.initRes = none → (start env.startEnv).2 = none →
      (restore env.restoreEnv).2 ≠ ROutcome.panicked →
      MainEv.snapshotsCall ∈ (mainGo env).1 ∧ MainEv.restoreCall ∈ (mainGo env).1
        ∧ (MainEv.recvSignal ∈ (mainGo env).1 ∨ MainEv.recvTaskExit ∈ (mainGo env).1)
        ∧ MainEv.cleanupRun ∈ (mainGo env).1) := by
  rcases hi : env.initRes with _ | ei <;>
    rcases hs : (start env.startEnv).2 with _ | es <;>
    rcases hr : (restore env.restoreEnv).2 with _ | er | _ <;>
    rcases hl : env.loopEvent with s | r <;>
    rcases hc : (cleanup env.cleanupEnum).2 with _ | ec <;>
    simp [mainGo, runDeferred, hi, hs, hr, hl, hc]

/-- C8: on a run whose connection and initial start succeeded and whose
restore did not panic, reaching the loop return (signal-triggered or
task-exit-triggered), the process exit status is 127 exactly when the
cleanup aggregate error is non-nil, and 0 when cleanup succeeds. -/
theorem exit_code_follows_cleanup (env : MainEnv) (h1 : env.initRes = none)
    (h2 : (start env.startEnv).2 = none)
    (h3 : (restore env.restoreEnv).2 ≠ ROutcome.panicked) :
    (mainGo env).2 = if ((cleanup env.cleanupEnum).2).isSome = true then 127 else 0 := by
  rcases hr : (restore env.restoreEnv).2 with _ | er | _
  case panicked => exact absurd hr h3
  all_goals
    rcases hl : env.loopEvent with s | r <;>
    rcases hc : (cleanup env.cleanupEnum).2 with _ | ec <;>
    simp [mainGo, runDeferred, h1, h2, hr, hl, hc]

/-- A removal environment whose task lookup fails. -/
def taskGoneRemoveEnv : RemoveEnv :=
  { containerID := "nginx-server", taskRes := some "no running task",
    statusRes := Except.ok TStatus.stopped, killRes := none, waitRes := none,
    deleteRes := Except.ok ⟨0, 0, none⟩, containerDeleteRes := none }

/-- A main environment whose run reaches the loop normally and whose
cleanup pass fails on its single container (no task exists for it). -/
def failingCleanupMainEnv : MainEnv :=
  { initRes := none, startEnv := okStartEnv, snapshotsRes := none, restoreEnv := okRestoreEnv,
    loopEvent := LoopEvent.signal "interrupt",
    cleanupEnum := Except.ok [taskGoneRemoveEnv] }

/-- C8 witness: at the concrete environment whose cleanup fails, the
process exit status is 127. -/
theorem exit_code_follows_cleanup_witness : (mainGo failingCleanupMainEnv).2 = 127 := by
  rw [exit_code_follows_cleanup failingCleanupMainEnv rfl rfl (by decide)]
  decide

end CSnap
